import Mathlib

/-!
Shallow embedding of the vehicle-registration dashboard's data core
(`utils.py` of the repository, plus the aggregation step of `app.py`).
Strings are modelled as Lean `String`s over their character lists, CSV
cells as an inductive `Cell` (null / text / numeric), numeric values as
rationals, and the pandas operations used by the code (column
canonicalization, type coercion, dropna, melt, stable index sort) as
explicit list functions.
-/

/-! ### Character and string primitives -/

/-- Python whitespace characters recognised by `str.strip` and the regex
class used by the source (ASCII subset, which covers the data involved). -/
def isPySpace (c : Char) : Bool :=
  c == ' ' || c == '\t' || c == '\n' || c == '\r' || c == '\x0b' || c == '\x0c'

/-- Drop leading characters satisfying `isPySpace`. -/
def stripLeft (l : List Char) : List Char := l.dropWhile isPySpace

/-- Python `str.strip()`: drop leading and trailing whitespace. -/
def pyStripChars (l : List Char) : List Char :=
  ((stripLeft l.reverse).reverse).dropWhile isPySpace

/-- Python `str.strip()` on a `String`. -/
def pyStrip (s : String) : String := String.mk (pyStripChars s.data)

/-- Python `str.lower()` (ASCII). -/
def lowerStr (s : String) : String := String.mk (s.data.map Char.toLower)

/-- Python `str.upper()` (ASCII). -/
def upperStr (s : String) : String := String.mk (s.data.map Char.toUpper)

/-- Whether `pat` occurs at the head of `l`. -/
def startsList : List Char → List Char → Bool
  | [], _ => true
  | _ :: _, [] => false
  | a :: as, b :: bs => a == b && startsList as bs

/-- Whether `pat` occurs as a contiguous sublist of `l`
(Python's `pat in s` / `re.search` on a literal pattern). -/
def hasSub (pat : List Char) : List Char → Bool
  | [] => startsList pat []
  | c :: t => startsList pat (c :: t) || hasSub pat t

/-- `containsSub hay pat`: Python `pat in hay` on strings. -/
def containsSub (hay pat : String) : Bool := hasSub pat.data hay.data

/-- Replace every maximal run of characters matching `re "[\s\-]+"` by a
single space (the header-cleaning substitution of `_canonicalize_columns`).
The flag records whether we are inside a run already emitted. -/
def collapseWH (inRun : Bool) : List Char → List Char
  | [] => []
  | c :: t =>
    if isPySpace c || c == '-' then
      if inRun then collapseWH true t else ' ' :: collapseWH true t
    else c :: collapseWH false t

/-- Characters kept verbatim by the classifier's normalisation
(`re "[^a-z0-9]+"` on an already-lowercased string). -/
def isLowerAlnum (c : Char) : Bool :=
  (decide (97 ≤ c.toNat) && decide (c.toNat ≤ 122)) ||
  (decide (48 ≤ c.toNat) && decide (c.toNat ≤ 57))

/-- Replace every maximal run of non-alphanumeric characters by a single
space (the classifier's normalisation substitution). -/
def collapseNA (inRun : Bool) : List Char → List Char
  | [] => []
  | c :: t =>
    if isLowerAlnum c then c :: collapseNA false t
    else if inRun then collapseNA true t
    else ' ' :: collapseNA true t

/-- Remove every occurrence of the literal `"(nos.)"`, scanning left to
right (Python `str.replace("(nos.)", "")`). -/
def replaceNos : List Char → List Char
  | '(' :: 'n' :: 'o' :: 's' :: '.' :: ')' :: t => replaceNos t
  | c :: t => c :: replaceNos t
  | [] => []

/-! ### Column canonicalization (`CANON`, `_canonicalize_columns`) -/

/-- The synonym table `CANON` of `utils.py`, in source order. -/
def CANON : List (String × String) :=
  [("date", "date"),
   ("state", "state"), ("state name", "state"), ("state_name", "state"),
   ("rto", "rto"), ("rto name", "rto"), ("rto_name", "rto"), ("office_name", "rto"),
   ("maker", "maker"), ("type", "maker"), ("make", "maker"), ("make_name", "maker"),
   ("manufacturer", "maker"), ("company", "maker"), ("oem", "maker"),
   ("category", "category"), ("veh_category", "category"), ("vehicle_category", "category"),
   ("registrations", "registrations"), ("count", "registrations"),
   ("no_of_vehicles", "registrations"), ("total_vehicles", "registrations")]

/-- Dictionary lookup in `CANON`. -/
def lookupCanon (k : String) : Option String :=
  (CANON.find? (fun p => p.1 == k)).map (fun p => p.2)

/-- The cleaning applied to one header before the `CANON` lookup:
strip, lowercase, collapse whitespace/hyphen runs to one space, delete
`"(nos.)"`, strip again. -/
def cleanHeader (s : String) : String :=
  String.mk (pyStripChars (replaceNos (collapseWH false (pyStripChars (s.data.map Char.toLower)))))

/-- `CANON.get(c0, c0)` applied to a cleaned header. -/
def canonicalizeHeader (s : String) : String :=
  (lookupCanon (cleanHeader s)).getD (cleanHeader s)

/-- `_canonicalize_columns` of `utils.py`. -/
def canonicalize_columns (cols : List String) : List String :=
  cols.map canonicalizeHeader

/-! ### Category classifier (`prepare_category_group`) -/

/-- 2W keyword fragments, in source order. -/
def kw2W : List String :=
  ["two wheeler", "twowheeler", "2w", "motor cycle", "motorcycle", "m cycle", "mcycle",
   "scooter", "sctr", "moped", "bike", "l1", "l2"]

/-- 3W keyword fragments, in source order. -/
def kw3W : List String :=
  ["three wheeler", "threewheeler", "3w", "auto rickshaw", "autorickshaw", "rickshaw",
   "e rickshaw", "erickshaw", "l5", "e rick"]

/-- 4W keyword fragments, in source order. -/
def kw4W : List String :=
  ["four wheeler", "fourwheeler", "4w", "lmv", "car", "motor car", "passenger car",
   "jeep", "van", "suv", "quadricycle", "qute", "lgv", "lcv", "mcv", "hcv", "hgv",
   "goods", "goods carrier", "truck", "bus", "omni bus", "omnibus", "taxi", "cab",
   "pickup", "tractor", "tempo", "lorry"]

/-- The classifier's `norm`: lowercase, strip, replace non-alphanumeric
runs by one space, collapse whitespace, strip. -/
def normStr (s : String) : String :=
  String.mk (pyStripChars (collapseNA false (pyStripChars (s.data.map Char.toLower))))

/-- The mapper returned by `prepare_category_group`. A `none` input models
a null or non-string value (the `isinstance` guard of the source). -/
def prepare_category_group : Option String → String
  | Option.none => "Other"
  | some raw =>
    if pyStrip raw = "" then "Other"
    else
      if kw2W.any (fun k => containsSub (normStr raw) k) then "2W"
      else if kw3W.any (fun k => containsSub (normStr raw) k) then "3W"
      else if kw4W.any (fun k => containsSub (normStr raw) k) then "4W"
      else "Other"

/-! ### Cells, dates, records -/

/-- A CSV cell after `pd.read_csv`: missing (NaN), text, or numeric. -/
inductive Cell
  | null : Cell
  | str (s : String) : Cell
  | num (q : ℚ) : Cell
deriving DecidableEq

/-- A calendar date (pandas `Timestamp`, truncated to what the code uses). -/
structure Date where
  year : ℤ
  month : ℕ
  day : ℕ
deriving DecidableEq

/-- A canonical output row of `load_data`: the fields the code reads
downstream. A `none` maker models a NaN / absent maker value. -/
structure Record where
  date : Date
  maker : Option String
  category : String
  registrations : ℚ
deriving DecidableEq

/-- Result of `load_data`: the frame's column names, its rows, and the
`has_maker` flag the code attaches as `df.attrs`. -/
structure LoadOut where
  columns : List String
  rows : List Record
  has_maker : Bool
deriving DecidableEq

/-- Value of a digit list read most-significant first. -/
def digitsVal : List Char → ℕ → ℕ
  | [], acc => acc
  | c :: t, acc => digitsVal t (acc * 10 + (c.toNat - 48))

/-- All characters are ASCII digits. -/
def allDigits (l : List Char) : Bool :=
  l.all (fun c => decide (48 ≤ c.toNat) && decide (c.toNat ≤ 57))

/-- Parse an unsigned numeric string: `digits` or `digits.digits`. -/
def parseUnsignedQ (l : List Char) : Option ℚ :=
  match l.splitOn '.' with
  | [intPart] =>
    if intPart ≠ [] && allDigits intPart then some ((digitsVal intPart 0 : ℕ) : ℚ)
    else Option.none
  | [intPart, fracPart] =>
    if intPart ≠ [] && allDigits intPart && fracPart ≠ [] && allDigits fracPart then
      some (((digitsVal intPart 0 : ℕ) : ℚ) +
        ((digitsVal fracPart 0 : ℕ) : ℚ) / ((10 : ℚ) ^ fracPart.length))
    else Option.none
  | _ => Option.none

/-- `pd.to_numeric(·, errors="coerce")` on a text cell: a simple decimal
numeral (with optional sign and surrounding whitespace) parses, anything
else coerces to NaN (`none`). -/
def parseNumQ (s : String) : Option ℚ :=
  match pyStripChars s.data with
  | '-' :: rest => (parseUnsignedQ rest).map (fun q => -q)
  | '+' :: rest => parseUnsignedQ rest
  | l => parseUnsignedQ l

/-- Numeric coercion of a cell (`pd.to_numeric(·, errors="coerce")`). -/
def cellToNum : Cell → Option ℚ
  | Cell.null => Option.none
  | Cell.num q => some q
  | Cell.str s => parseNumQ s

/-- `.fillna(0)` after numeric coercion. -/
def fillZero (c : Cell) : ℚ := (cellToNum c).getD 0

/-- `astype(str)` on a cell: NaN becomes the literal `"nan"`, text stays. -/
def cellToStr : Cell → String
  | Cell.null => "nan"
  | Cell.str s => s
  | Cell.num q => toString q

/-- `pd.to_datetime(·, format="%Y", errors="coerce")`: an integer value or
a four-digit text parses to January 1 of that year, anything else to NaT
(`none`). -/
def parseYearCell : Cell → Option Date
  | Cell.null => Option.none
  | Cell.num q => if q.den = 1 then some ⟨q.num, 1, 1⟩ else Option.none
  | Cell.str s =>
    if s.data.length = 4 && allDigits s.data then
      some ⟨(digitsVal s.data 0 : ℕ), 1, 1⟩
    else Option.none

/-! ### Yearly loader (`load_data`, `monthly=False` branch) -/

/-- The raw yearly CSV: a header list and positional rows. -/
structure RawTable where
  headers : List String
  rows : List (List Cell)

/-- Keep the first column of each name (`df.loc[:, ~df.columns.duplicated()]`),
remembering each kept column's original position. -/
def keepFirstAux (seen : List String) : List (ℕ × String) → List (ℕ × String)
  | [] => []
  | p :: t =>
    if seen.contains p.2 then keepFirstAux seen t
    else p :: keepFirstAux (p.2 :: seen) t

/-- Canonicalized, deduplicated columns of the yearly table, with their
original positions. -/
def colPairs (t : RawTable) : List (ℕ × String) :=
  keepFirstAux [] (canonicalize_columns t.headers).enum

/-- The column names of the loaded yearly frame. -/
def yearlyCols (t : RawTable) : List String := (colPairs t).map (fun p => p.2)

/-- `required_min = {date, category, registrations}` presence check. -/
def requiredOk (cols : List String) : Bool :=
  cols.contains "date" && cols.contains "category" && cols.contains "registrations"

/-- The cell of `row` under canonical column `name` (null when absent). -/
def cellAt (pairs : List (ℕ × String)) (row : List Cell) (name : String) : Cell :=
  match pairs.find? (fun p => p.2 == name) with
  | some p => row.getD p.1 Cell.null
  | Option.none => Cell.null

/-- The EV-only predicate:
`str.contains("ELECTRIC|EV", case=False)` on the category text. -/
def evMatch (cat : String) : Bool :=
  containsSub (upperStr cat) "ELECTRIC" || containsSub (upperStr cat) "EV"

/-- Per-row processing of the yearly branch: parse the date (drop the row
on NaT), drop the row on a null category, zero-fill non-numeric
registrations, strip the string fields. -/
def processRow (pairs : List (ℕ × String)) (hasM : Bool) (row : List Cell) : Option Record :=
  match parseYearCell (cellAt pairs row "date") with
  | Option.none => Option.none
  | some d =>
    if cellAt pairs row "category" = Cell.null then Option.none
    else
      some ⟨d,
        if hasM then some (pyStrip (cellToStr (cellAt pairs row "maker"))) else Option.none,
        pyStrip (cellToStr (cellAt pairs row "category")),
        fillZero (cellAt pairs row "registrations")⟩

/-- The yearly branch of `load_data`. -/
def load_yearly (ev_only : Bool) (t : RawTable) : Except String LoadOut :=
  if requiredOk (yearlyCols t) then
    let hasM := (yearlyCols t).contains "maker"
    let recs := t.rows.filterMap (processRow (colPairs t) hasM)
    Except.ok ⟨yearlyCols t,
      if ev_only then recs.filter (fun r => evMatch r.category) else recs,
      hasM⟩
  else
    Except.error "CSV is missing required basics date, category, registrations"

/-! ### Monthly loader (`load_data`, `monthly=True` branch) -/

/-- A raw row of the wide monthly CSV: `Year`, `Month`, and the cells of
the per-category columns (positionally aligned with `catCols`). -/
structure WideRow where
  year : ℤ
  month : String
  cells : List Cell

/-- The wide monthly CSV. -/
structure WideTable where
  catCols : List String
  rows : List WideRow

/-- `%b` month-abbreviation parsing (case-insensitive, as `strptime`). -/
def monthNum (m : String) : Option ℕ :=
  (["jan", "feb", "mar", "apr", "may", "jun",
    "jul", "aug", "sep", "oct", "nov", "dec"].indexOf? (lowerStr m)).map (fun i => i + 1)

/-- `pd.to_datetime(Year + "-" + Month, format="%Y-%b")` for one row. -/
def parseWideDate (r : WideRow) : Option Date :=
  (monthNum r.month).map (fun m => ⟨r.year, m, 1⟩)

/-- Parse every row's date; `to_datetime` raises on the first failure
(there is no `errors="coerce"` in the monthly branch). -/
def allDates : List WideRow → Option (List (Date × List Cell))
  | [] => some []
  | r :: t =>
    match parseWideDate r with
    | Option.none => Option.none
    | some d => (allDates t).map (fun l => (d, r.cells) :: l)

/-- One melted record: the cell of category column `c` (position `j`) of a
dated row, with registrations zero-filled and a NaN maker. -/
def meltRec (j : ℕ) (c : String) (r : Date × List Cell) : Record :=
  ⟨r.1, Option.none, c, fillZero (r.2.getD j Cell.null)⟩

/-- `df.melt(id_vars=["date"], ...)`: variable-major enumeration of the
(category column, row) cells. -/
def meltAux (j : ℕ) (cats : List String) (rows : List (Date × List Cell)) : List Record :=
  match cats with
  | [] => []
  | c :: cs => rows.map (meltRec j c) ++ meltAux (j + 1) cs rows

/-- The monthly branch of `load_data`. The `ev_only` flag is accepted but
unused by this branch of the source. -/
def load_monthly (ev_only : Bool) (t : WideTable) : Except String LoadOut :=
  match allDates t.rows with
  | Option.none => Except.error "time data does not match format"
  | some rows2 =>
    Except.ok ⟨["date", "category", "registrations", "maker"], meltAux 0 t.catCols rows2, false⟩

/-- `load_data(ev_only, monthly)`, reading the corresponding source table. -/
def load_data (ev_only monthly : Bool) (yt : RawTable) (mt : WideTable) : Except String LoadOut :=
  if monthly then load_monthly ev_only mt else load_yearly ev_only yt

/-- Whether a load succeeded (no exception raised). -/
def loadOk : Except String LoadOut → Bool
  | Except.ok _ => true
  | Except.error _ => false

/-! ### Growth calculator (`compute_growth_rates`) and KPI delta -/

/-- Comparison on series entries by index (the key of `sort_index`). -/
def keyLe (a b : ℤ × Option ℚ) : Prop := a.1 ≤ b.1

instance : DecidableRel keyLe := fun a b => (inferInstance : Decidable (a.1 ≤ b.1))

instance : IsTotal (ℤ × Option ℚ) keyLe := ⟨fun a b => le_total a.1 b.1⟩

instance : IsTrans (ℤ × Option ℚ) keyLe := ⟨fun _ _ _ h h2 => le_trans h h2⟩

/-- `series.sort_index()`: a stable sort by index. -/
def sortSeries (l : List (ℤ × Option ℚ)) : List (ℤ × Option ℚ) :=
  List.insertionSort keyLe l

/-- `.dropna()`: keep the entries carrying a value. -/
def dropNone (l : List (ℤ × Option ℚ)) : List (ℤ × ℚ) :=
  l.filterMap (fun p => p.2.map (fun v => (p.1, v)))

/-- `compute_growth_rates` of `utils.py`. A series is a list of
(index, value) entries, with `none` values modelling NaN. The source's
inner `len(s) < 2` re-check is the wildcard arm of the match. -/
def compute_growth_rates (series : List (ℤ × Option ℚ)) : Option ℚ :=
  if series.length < 2 then Option.none
  else
    match (dropNone (sortSeries series)).reverse with
    | curr :: prev :: _ =>
      if prev.2 = 0 then Option.none else some ((curr.2 - prev.2) / prev.2)
    | _ => Option.none

/-- A Python float as `kpi_delta` sees it: NaN, an infinity, or a finite
value (modelled as an exact rational). -/
inductive FloatQ
  | nan : FloatQ
  | inf : FloatQ
  | ninf : FloatQ
  | fin (q : ℚ) : FloatQ
deriving DecidableEq

/-- Python `round(·, 1)` applied to ten times the value: round half to
even on the integer scale. -/
def roundHE (q : ℚ) : ℤ :=
  if q - ⌊q⌋ < 1 / 2 then ⌊q⌋
  else if 1 / 2 < q - ⌊q⌋ then ⌊q⌋ + 1
  else if ⌊q⌋ % 2 = 0 then ⌊q⌋ else ⌊q⌋ + 1

/-- Render a magnitude in tenths with exactly one decimal place. -/
def fmt1 (n : ℕ) : String := toString (n / 10) ++ "." ++ toString (n % 10)

/-- `kpi_delta` of `utils.py`: "n/a" on `None`, infinities and NaN, else
the sign (an explicit "+" when non-negative, Python's own "-" otherwise)
followed by `round(growth*100, 1)` and a percent sign. -/
def kpi_delta : Option FloatQ → String
  | Option.none => "n/a"
  | some FloatQ.nan => "n/a"
  | some FloatQ.inf => "n/a"
  | some FloatQ.ninf => "n/a"
  | some (FloatQ.fin g) =>
    (if 0 ≤ g then "+" else "-") ++ fmt1 (roundHE (|g| * 1000)).natAbs ++ "%"

/-- The app's composition: format the result of the growth calculator. -/
def kpi_delta_growth (g : Option ℚ) : String := kpi_delta (g.map FloatQ.fin)

/-! ### Aggregation (from `app.py`) -/

/-- `df["vehicle_group"] = df["category"].map(mapper)` of `app.py`. -/
def vehicle_group (r : Record) : String := prepare_category_group (some r.category)

/-- The yearly aggregate of `app.py` (`groupby` on a year-start grouper
and `vehicle_group`, summing registrations), read off at one cell. -/
def yearlyAggregate (rows : List Record) (y : ℤ) (vg : String) : ℚ :=
  ((rows.filter (fun r => r.date.year == y && vehicle_group r == vg)).map
    (fun r => r.registrations)).sum

/-! ### Helper lemmas -/

theorem meltAux_length (cats : List String) (j : ℕ) (rows : List (Date × List Cell)) :
    (meltAux j cats rows).length = cats.length * rows.length := by
  induction cats generalizing j with
  | nil => simp [meltAux]
  | cons c cs ih =>
    simp [meltAux, ih, Nat.succ_mul, Nat.add_comm]

theorem meltAux_getElem? (cats : List String) (j : ℕ) (rows : List (Date × List Cell))
    (k i : ℕ) (c : String) (rc : Date × List Cell)
    (hk : cats[k]? = some c) (hi : rows[i]? = some rc) :
    (meltAux j cats rows)[k * rows.length + i]? = some (meltRec (j + k) c rc) := by
  induction cats generalizing j k with
  | nil => simp at hk
  | cons c0 cs ih =>
    have hi' : i < rows.length := by
      have := List.getElem?_eq_some.mp hi
      exact this.1
    cases k with
    | zero =>
      simp only [List.getElem?_cons_zero, Option.some.injEq] at hk
      subst hk
      simp only [meltAux, Nat.zero_mul, Nat.zero_add, Nat.add_zero]
      rw [List.getElem?_append_left (by simpa using hi')]
      rw [List.getElem?_map, hi]
      rfl
    | succ k' =>
      simp only [List.getElem?_cons_succ] at hk
      have hidx : (k' + 1) * rows.length + i =
          (rows.map (meltRec j c0)).length + (k' * rows.length + i) := by
        simp [Nat.succ_mul]
        ring
      simp only [meltAux]
      rw [hidx, List.getElem?_append_right (Nat.le_add_right _ _), Nat.add_sub_cancel_left]
      have := ih (j + 1) k' hk
      simpa [Nat.add_assoc, Nat.add_comm 1 k'] using this

theorem allDates_length (l : List WideRow) (l2 : List (Date × List Cell))
    (h : allDates l = some l2) : l2.length = l.length := by
  induction l generalizing l2 with
  | nil => simp [allDates] at h; simp [← h]
  | cons r t ih =>
    simp only [allDates] at h
    cases hp : parseWideDate r with
    | none => rw [hp] at h; simp at h
    | some d =>
      rw [hp] at h
      cases ht : allDates t with
      | none => rw [ht] at h; simp at h
      | some t2 =>
        rw [ht] at h
        simp only [Option.map_some', Option.some.injEq] at h
        subst h
        simp [ih t2 ht]

theorem meltAux_maker (cats : List String) (j : ℕ) (rows : List (Date × List Cell))
    (r : Record) (h : r ∈ meltAux j cats rows) : r.maker = Option.none := by
  induction cats generalizing j with
  | nil => simp [meltAux] at h
  | cons c cs ih =>
    simp only [meltAux, List.mem_append, List.mem_map] at h
    rcases h with ⟨rc, _, hr⟩ | h
    · rw [← hr]; rfl
    · exact ih (j + 1) h

/-- Entries compared strictly by index. -/
def keyLt (a b : ℤ × Option ℚ) : Prop := a.1 < b.1

instance : IsAntisymm (ℤ × Option ℚ) keyLt :=
  ⟨fun a b h h2 => ((lt_irrefl a.1) (lt_trans h h2)).elim⟩

theorem sortSeries_eq_of_perm (l1 l2 : List (ℤ × Option ℚ))
    (hp : List.Perm l1 l2) (hnd : (l1.map Prod.fst).Nodup) :
    sortSeries l1 = sortSeries l2 := by
  have p1 : List.Perm (sortSeries l1) l1 := List.perm_insertionSort keyLe l1
  have p2 : List.Perm (sortSeries l2) l2 := List.perm_insertionSort keyLe l2
  have p : List.Perm (sortSeries l1) (sortSeries l2) :=
    (p1.trans hp).trans p2.symm
  have s1 : List.Sorted keyLe (sortSeries l1) := List.sorted_insertionSort keyLe l1
  have s2 : List.Sorted keyLe (sortSeries l2) := List.sorted_insertionSort keyLe l2
  have hnd1 : ((sortSeries l1).map Prod.fst).Nodup :=
    ((p1.map Prod.fst).nodup_iff).mpr hnd
  have hnd2 : ((sortSeries l2).map Prod.fst).Nodup := by
    have : List.Perm ((sortSeries l1).map Prod.fst) ((sortSeries l2).map Prod.fst) :=
      p.map Prod.fst
    exact (this.nodup_iff).mp hnd1
  have strict : ∀ (m : List (ℤ × Option ℚ)), List.Sorted keyLe m →
      (m.map Prod.fst).Nodup → List.Sorted keyLt m := by
    intro m hs hn
    have hne : m.Pairwise (fun a b : ℤ × Option ℚ => a.1 ≠ b.1) :=
      (List.pairwise_map).mp hn
    exact (hs.and hne).imp (fun h => lt_of_le_of_ne h.1 h.2)
  exact List.eq_of_perm_of_sorted (r := keyLt) p
    (strict _ s1 hnd1) (strict _ s2 hnd2)

/-! ### Claim C5: classifier priority and fallbacks -/

/-- C5: the category classifier returns "2W" if any 2W fragment occurs as
a substring of the normalized text, otherwise "3W" on a 3W fragment,
otherwise "4W" on a 4W fragment, otherwise "Other"; null, non-string and
empty (all-whitespace) input yields "Other" immediately, so the priority
2W over 3W over 4W is respected whenever several buckets match. -/
theorem C5_classifier_priority :
    prepare_category_group Option.none = "Other" ∧
    (∀ s : String, pyStrip s = "" → prepare_category_group (some s) = "Other") ∧
    (∀ s : String, pyStrip s ≠ "" →
      kw2W.any (fun k => containsSub (normStr s) k) = true →
      prepare_category_group (some s) = "2W") ∧
    (∀ s : String, pyStrip s ≠ "" →
      kw2W.any (fun k => containsSub (normStr s) k) = false →
      kw3W.any (fun k => containsSub (normStr s) k) = true →
      prepare_category_group (some s) = "3W") ∧
    (∀ s : String, pyStrip s ≠ "" →
      kw2W.any (fun k => containsSub (normStr s) k) = false →
      kw3W.any (fun k => containsSub (normStr s) k) = false →
      kw4W.any (fun k => containsSub (normStr s) k) = true →
      prepare_category_group (some s) = "4W") ∧
    (∀ s : String, pyStrip s ≠ "" →
      kw2W.any (fun k => containsSub (normStr s) k) = false →
      kw3W.any (fun k => containsSub (normStr s) k) = false →
      kw4W.any (fun k => containsSub (normStr s) k) = false →
      prepare_category_group (some s) = "Other") := by
  refine ⟨rfl, ?_, ?_, ?_, ?_, ?_⟩
  · intro s h; simp [prepare_category_group, h]
  · intro s h h2; simp [prepare_category_group, h, h2]
  · intro s h h2 h3; simp [prepare_category_group, h, h2, h3]
  · intro s h h2 h3 h4; simp [prepare_category_group, h, h2, h3, h4]
  · intro s h h2 h3 h4; simp [prepare_category_group, h, h2, h3, h4]

/-- Witness for C5 at concrete inputs: a string matching both a 2W and a
3W fragment classifies as "2W", and a pure 3W string as "3W". -/
theorem C5_witness :
    prepare_category_group (some "Motor Cycle Rickshaw") = "2W" ∧
    prepare_category_group (some "E-Rickshaw") = "3W" :=
  ⟨C5_classifier_priority.2.2.1 "Motor Cycle Rickshaw" (by decide) (by decide),
   C5_classifier_priority.2.2.2.1 "E-Rickshaw" (by decide) (by decide) (by decide)⟩

/-! ### Claim C6: growth calculator -/

/-- `roundHE` fixes integers. -/
theorem roundHE_intCast (n : ℤ) : roundHE (n : ℚ) = n := by
  unfold roundHE
  rw [Int.floor_intCast, sub_self]
  norm_num

/-- Evaluation of `kpi_delta` on a finite value whose scaled magnitude is
an integer. -/
theorem kpi_delta_eval (q : ℚ) (n : ℤ) (h : |q| * 1000 = (n : ℚ)) :
    kpi_delta (some (FloatQ.fin q)) = (if 0 ≤ q then "+" else "-") ++ fmt1 n.natAbs ++ "%" := by
  simp only [kpi_delta, h, roundHE_intCast]

/-- The last-two-points formula of `compute_growth_rates`, exposed on the
sorted, null-free view of the series. -/
theorem compute_growth_rates_formula (l : List (ℤ × Option ℚ)) (curr prev : ℤ × ℚ)
    (rest : List (ℤ × ℚ)) (h2 : 2 ≤ l.length)
    (hrev : (dropNone (sortSeries l)).reverse = curr :: prev :: rest) :
    compute_growth_rates l =
      if prev.2 = 0 then Option.none else some ((curr.2 - prev.2) / prev.2) := by
  unfold compute_growth_rates
  rw [if_neg (by omega)]
  simp only [hrev]

/-- C6: the growth calculator returns (latest - previous) / previous over
the last two non-null points of the index-sorted series, and null when
fewer than two raw points exist, fewer than two non-null points remain,
or the second-to-last value is zero; the four documented examples
evaluate and render as stated. -/
theorem C6_growth_calculator :
    compute_growth_rates [(0, some 100), (1, some 150)] = some (1 / 2) ∧
    kpi_delta_growth (compute_growth_rates [(0, some 100), (1, some 150)]) = "+50.0%" ∧
    compute_growth_rates [(0, some 100), (1, some 100)] = some 0 ∧
    kpi_delta_growth (compute_growth_rates [(0, some 100), (1, some 100)]) = "+0.0%" ∧
    compute_growth_rates [(0, some 0), (1, some 50)] = Option.none ∧
    kpi_delta_growth (compute_growth_rates [(0, some 0), (1, some 50)]) = "n/a" ∧
    (∀ l : List (ℤ × Option ℚ), l.length < 2 → compute_growth_rates l = Option.none) ∧
    (∀ l : List (ℤ × Option ℚ), (dropNone (sortSeries l)).length < 2 →
      compute_growth_rates l = Option.none) ∧
    (∀ (l : List (ℤ × Option ℚ)) (curr prev : ℤ × ℚ) (rest : List (ℤ × ℚ)),
      2 ≤ l.length →
      (dropNone (sortSeries l)).reverse = curr :: prev :: rest →
      compute_growth_rates l =
        if prev.2 = 0 then Option.none else some ((curr.2 - prev.2) / prev.2)) := by
  have e1 : compute_growth_rates [(0, some 100), (1, some 150)] = some (1 / 2) := by
    rw [compute_growth_rates_formula _ ((1 : ℤ), (150 : ℚ)) ((0 : ℤ), (100 : ℚ)) []
      (by decide) (by decide)]
    norm_num
  have e2 : compute_growth_rates [(0, some 100), (1, some 100)] = some 0 := by
    rw [compute_growth_rates_formula _ ((1 : ℤ), (100 : ℚ)) ((0 : ℤ), (100 : ℚ)) []
      (by decide) (by decide)]
    norm_num
  have e3 : compute_growth_rates [(0, some 0), (1, some 50)] = Option.none := by
    rw [compute_growth_rates_formula _ ((1 : ℤ), (50 : ℚ)) ((0 : ℤ), (0 : ℚ)) []
      (by decide) (by decide)]
    norm_num
  refine ⟨e1, ?_, e2, ?_, e3, ?_, ?_, ?_, ?_⟩
  · rw [e1]
    show kpi_delta (some (FloatQ.fin (1 / 2))) = "+50.0%"
    rw [kpi_delta_eval (1 / 2) 500
      (by push_cast; rw [abs_of_nonneg (by norm_num)]; norm_num), if_pos (by norm_num)]
    decide
  · rw [e2]
    show kpi_delta (some (FloatQ.fin 0)) = "+0.0%"
    rw [kpi_delta_eval 0 0 (by push_cast; norm_num), if_pos (by norm_num)]
    decide
  · rw [e3]; rfl
  · intro l h; simp [compute_growth_rates, h]
  · intro l h
    unfold compute_growth_rates
    by_cases h0 : l.length < 2
    · simp [h0]
    · simp only [if_neg h0]
      have hlen : (dropNone (sortSeries l)).reverse.length < 2 := by
        rw [List.length_reverse]; exact h
      cases hm : (dropNone (sortSeries l)).reverse with
      | nil => simp [hm]
      | cons a t =>
        cases t with
        | nil => simp [hm]
        | cons b t2 => rw [hm] at hlen; simp at hlen; omega
  · exact compute_growth_rates_formula

/-- Witness for C6's general clauses at concrete inputs. -/
theorem C6_witness :
    compute_growth_rates [((5 : ℤ), some (3 : ℚ))] = Option.none ∧
    compute_growth_rates [((0 : ℤ), Option.none), ((1 : ℤ), some (3 : ℚ))] = Option.none ∧
    compute_growth_rates [((0 : ℤ), some (100 : ℚ)), ((1 : ℤ), some (150 : ℚ))] =
      (if ((0 : ℤ), (100 : ℚ)).2 = 0 then Option.none
       else some ((((1 : ℤ), (150 : ℚ)).2 - ((0 : ℤ), (100 : ℚ)).2) / ((0 : ℤ), (100 : ℚ)).2)) :=
  ⟨C6_growth_calculator.2.2.2.2.2.2.1 _ (by decide),
   C6_growth_calculator.2.2.2.2.2.2.2.1 _ (by decide),
   C6_growth_calculator.2.2.2.2.2.2.2.2 _ ((1 : ℤ), (150 : ℚ)) ((0 : ℤ), (100 : ℚ)) []
     (by decide) (by decide)⟩

/-! ### Claim C7: KPI delta rendering -/

/-- C7: the KPI delta formatter renders null, infinite and NaN growth as
the literal "n/a", and any finite value as a percentage string with one
decimal place, with an explicit leading "+" when the value is
non-negative and a "-" when it is negative. -/
theorem C7_kpi_rendering :
    kpi_delta Option.none = "n/a" ∧
    kpi_delta (some FloatQ.nan) = "n/a" ∧
    kpi_delta (some FloatQ.inf) = "n/a" ∧
    kpi_delta (some FloatQ.ninf) = "n/a" ∧
    (∀ q : ℚ, 0 ≤ q → ∃ m d : ℕ, d < 10 ∧
      kpi_delta (some (FloatQ.fin q)) = "+" ++ (toString m ++ "." ++ toString d) ++ "%") ∧
    (∀ q : ℚ, q < 0 → ∃ m d : ℕ, d < 10 ∧
      kpi_delta (some (FloatQ.fin q)) = "-" ++ (toString m ++ "." ++ toString d) ++ "%") ∧
    kpi_delta (some (FloatQ.fin (123 / 1000))) = "+12.3%" ∧
    kpi_delta (some (FloatQ.fin (-(1 / 25)))) = "-4.0%" := by
  refine ⟨rfl, rfl, rfl, rfl, ?_, ?_, ?_, ?_⟩
  · intro q hq
    refine ⟨(roundHE (|q| * 1000)).natAbs / 10, (roundHE (|q| * 1000)).natAbs % 10,
      Nat.mod_lt _ (by norm_num), ?_⟩
    simp only [kpi_delta, if_pos hq, fmt1]
  · intro q hq
    refine ⟨(roundHE (|q| * 1000)).natAbs / 10, (roundHE (|q| * 1000)).natAbs % 10,
      Nat.mod_lt _ (by norm_num), ?_⟩
    simp only [kpi_delta, if_neg (not_le.mpr hq), fmt1]
  · rw [kpi_delta_eval (123 / 1000) 123
      (by push_cast; rw [abs_of_nonneg (by norm_num)]; norm_num), if_pos (by norm_num)]
    decide
  · rw [kpi_delta_eval (-(1 / 25)) 40
      (by push_cast; rw [abs_of_nonpos (by norm_num)]; norm_num), if_neg (by norm_num)]
    decide

/-- Witness for C7's quantified clauses at concrete growth values. -/
theorem C7_witness :
    (∃ m d : ℕ, d < 10 ∧
      kpi_delta (some (FloatQ.fin 2)) = "+" ++ (toString m ++ "." ++ toString d) ++ "%") ∧
    (∃ m d : ℕ, d < 10 ∧
      kpi_delta (some (FloatQ.fin (-2))) = "-" ++ (toString m ++ "." ++ toString d) ++ "%") :=
  ⟨C7_kpi_rendering.2.2.2.2.1 2 (by norm_num),
   C7_kpi_rendering.2.2.2.2.2.1 (-2) (by norm_num)⟩

/-! ### Claim C8: header canonicalization -/

/-- Turn the spaces of a synonym variant into hyphens. -/
def spaceToHyphen (s : String) : String :=
  String.mk (s.data.map (fun c => if c == ' ' then '-' else c))

/-- The header variations claimed to be immaterial: identity, upper case,
surrounding whitespace, hyphen-for-space, and an attached unit suffix
with or without a separating space. -/
def vfuns : List (String → String) :=
  [fun s => s, upperStr, fun s => " " ++ s ++ " ", spaceToHyphen,
   fun s => s ++ "(nos.)", fun s => s ++ " (nos.)"]

/-- C8: every variant listed in the synonym table canonicalizes to its
documented canonical name under any of the claimed variations (case,
surrounding whitespace, hyphen for space, attached unit suffix), and any
header whose cleaned form misses the table passes through cleaned. -/
theorem C8_canonicalization :
    (∀ p ∈ CANON, vfuns.all (fun f => canonicalizeHeader (f p.1) == p.2) = true) ∧
    (∀ s : String, lookupCanon (cleanHeader s) = Option.none →
      canonicalizeHeader s = cleanHeader s) := by
  constructor
  · decide
  · intro s h
    unfold canonicalizeHeader
    rw [h]
    rfl

/-- Witness for C8 at a concrete synonym and a concrete unknown header. -/
theorem C8_witness :
    vfuns.all (fun f => canonicalizeHeader (f "count") == "registrations") = true ∧
    canonicalizeHeader "Extra Col" = cleanHeader "Extra Col" :=
  ⟨C8_canonicalization.1 ("count", "registrations") (by decide),
   C8_canonicalization.2 "Extra Col" (by decide)⟩

/-! ### Claim C1: yearly end-to-end scenario -/

/-- The yearly source of the claimed scenario, headers as stated. -/
def C1badTable : RawTable :=
  ⟨["Year", "Type", "Veh_Category", "Count"],
   [[Cell.num 2022, Cell.str "Hero", Cell.str "Motor Cycle", Cell.num 1000]]⟩

/-- The same source with a `Date` header, which the synonym table does map. -/
def C1table : RawTable :=
  ⟨["Date", "Type", "Veh_Category", "Count"],
   [[Cell.num 2022, Cell.str "Hero", Cell.str "Motor Cycle", Cell.num 1000]]⟩

/-- The record the amended scenario produces. -/
def C1record : Record := ⟨⟨2022, 1, 1⟩, some "Hero", "Motor Cycle", 1000⟩

/-- C1 counterexample: with the claimed headers the synonym table maps
"Year" to "year", not "date", so the required-column check fails and the
yearly load raises instead of succeeding. -/
theorem C1_counterexample : loadOk (load_yearly false C1badTable) = false := by decide

/-- C1 amended: with a "Date" header (the only change the counterexample
forces), the yearly load succeeds and produces exactly the claimed record,
which classifies to vehicle group "2W" and contributes 1000 to the 2022
"2W" yearly aggregate. -/
theorem C1_yearly_end_to_end :
    load_yearly false C1table =
      Except.ok ⟨["date", "maker", "category", "registrations"], [C1record], true⟩ ∧
    vehicle_group C1record = "2W" ∧
    yearlyAggregate [C1record] 2022 "2W" = 1000 := by
  refine ⟨rfl, rfl, ?_⟩
  have hf : List.filter (fun r => r.date.year == 2022 && vehicle_group r == "2W")
      [C1record] = [C1record] := by decide
  unfold yearlyAggregate
  rw [hf]
  simp [C1record]

/-! ### Claim C2: EV-only filter -/

/-- A monthly source with a non-EV category column. -/
def C2wideTable : WideTable := ⟨["4W"], [⟨2023, "Jan", [Cell.num 7]⟩]⟩

/-- A yearly source with one EV row and one non-EV row. -/
def C2yearlyTable : RawTable :=
  ⟨["Date", "Veh_Category", "Count"],
   [[Cell.num 2022, Cell.str "ELECTRIC(BOV)", Cell.num 5],
    [Cell.num 2022, Cell.str "Motor Cycle", Cell.num 7]]⟩

/-- C2 counterexample: a monthly load with the EV-only flag set retains a
row whose category "4W" contains neither "ELECTRIC" nor "EV" — the
monthly branch of the source never applies the filter. -/
theorem C2_counterexample :
    load_monthly true C2wideTable =
      Except.ok ⟨["date", "category", "registrations", "maker"],
        [⟨⟨2023, 1, 1⟩, Option.none, "4W", 7⟩], false⟩ ∧
    evMatch "4W" = false := ⟨rfl, rfl⟩

/-- C2 amended: in yearly mode the EV-only flag retains exactly the rows
whose category case-insensitively contains "ELECTRIC" or "EV" (the result
is the unfiltered result restricted to those rows); in monthly mode the
flag has no effect on the result. -/
theorem C2_ev_filter :
    (∀ (t : RawTable) (out : LoadOut), load_yearly true t = Except.ok out →
      ∀ r ∈ out.rows, evMatch r.category = true) ∧
    (∀ t : RawTable, load_yearly true t =
      Except.map (fun o : LoadOut =>
        ⟨o.columns, o.rows.filter (fun r => evMatch r.category), o.has_maker⟩)
        (load_yearly false t)) ∧
    (∀ (e1 e2 : Bool) (mt : WideTable), load_monthly e1 mt = load_monthly e2 mt) := by
  refine ⟨?_, ?_, ?_⟩
  · intro t out h r hr
    unfold load_yearly at h
    split at h
    · simp only [if_true, Except.ok.injEq] at h
      rw [← h] at hr
      simp only [List.mem_filter] at hr
      exact hr.2
    · exact absurd h (by simp)
  · intro t
    unfold load_yearly
    split
    · rfl
    · rfl
  · intro e1 e2 mt
    rfl

/-- Witness for C2 at the concrete yearly table: the single retained row's
category matches the EV predicate. -/
theorem C2_witness : evMatch "ELECTRIC(BOV)" = true :=
  C2_ev_filter.1 C2yearlyTable
    ⟨["date", "category", "registrations"],
     [⟨⟨2022, 1, 1⟩, Option.none, "ELECTRIC(BOV)", 5⟩], false⟩
    rfl
    ⟨⟨2022, 1, 1⟩, Option.none, "ELECTRIC(BOV)", 5⟩ (by simp)

/-! ### Claim C3: row-level error recovery -/

/-- A monthly source with an unparseable month abbreviation. -/
def C3wideTable : WideTable := ⟨["2W"], [⟨2023, "Foo", [Cell.num 1]⟩]⟩

/-- A yearly source whose rows exercise the recovery paths. -/
def C3yearlyTable : RawTable :=
  ⟨["Date", "Veh_Category", "Count"],
   [[Cell.str "20x2", Cell.str "Car", Cell.num 3],
    [Cell.num 2022, Cell.null, Cell.num 4],
    [Cell.num 2022, Cell.str "Car", Cell.str "abc"]]⟩

/-- A monthly source on which every month parses. -/
def C3monthlyOkTable : WideTable := ⟨["2W"], [⟨2023, "Mar", [Cell.str "oops"]⟩]⟩

/-- C3 counterexample: in monthly mode an unparseable date raises — the
monthly `to_datetime` call has no coercion — contradicting the claim that
no mode ever errors on a bad row. -/
theorem C3_counterexample :
    load_monthly false C3wideTable = Except.error "time data does not match format" := rfl

/-- C3 amended: in yearly mode a load with the required columns present
never errors — rows with an unparseable date or a null category are
dropped and non-numeric registrations are zero-filled — and in monthly
mode non-numeric registrations are likewise zero-filled and the load
succeeds whenever every Year/Month pair parses (an unparseable one
raises, per the counterexample). -/
theorem C3_row_recovery :
    (∀ (ev : Bool) (t : RawTable), requiredOk (yearlyCols t) = true →
      loadOk (load_yearly ev t) = true) ∧
    (∀ (pairs : List (ℕ × String)) (hm : Bool) (row : List Cell),
      parseYearCell (cellAt pairs row "date") = Option.none →
      processRow pairs hm row = Option.none) ∧
    (∀ (pairs : List (ℕ × String)) (hm : Bool) (row : List Cell),
      cellAt pairs row "category" = Cell.null →
      processRow pairs hm row = Option.none) ∧
    (∀ c : Cell, cellToNum c = Option.none → fillZero c = 0) ∧
    (∀ (ev : Bool) (t : WideTable) (rows2 : List (Date × List Cell)),
      allDates t.rows = some rows2 → loadOk (load_monthly ev t) = true) := by
  refine ⟨?_, ?_, ?_, ?_, ?_⟩
  · intro ev t h
    simp [load_yearly, h, loadOk]
  · intro pairs hm row h
    simp [processRow, h]
  · intro pairs hm row h
    unfold processRow
    cases parseYearCell (cellAt pairs row "date") with
    | none => rfl
    | some d => simp [h]
  · intro c h
    simp [fillZero, h]
  · intro ev t rows2 h
    simp [load_monthly, h, loadOk]

/-- Witness for C3 on concrete rows: the yearly load succeeds on a table
with a bad date, a null category and non-numeric registrations; each
recovery path fires; the parseable monthly table loads. -/
theorem C3_witness :
    loadOk (load_yearly false C3yearlyTable) = true ∧
    processRow [(0, "date")] false [Cell.str "20x2"] = Option.none ∧
    processRow [(0, "date"), (1, "category")] false [Cell.num 2022, Cell.null] =
      Option.none ∧
    fillZero (Cell.str "abc") = 0 ∧
    loadOk (load_monthly false C3monthlyOkTable) = true :=
  ⟨C3_row_recovery.1 false C3yearlyTable (by decide),
   C3_row_recovery.2.1 [(0, "date")] false [Cell.str "20x2"] (by decide),
   C3_row_recovery.2.2.1 [(0, "date"), (1, "category")] false [Cell.num 2022, Cell.null]
     (by decide),
   C3_row_recovery.2.2.2.1 (Cell.str "abc") (by decide),
   C3_row_recovery.2.2.2.2 false C3monthlyOkTable [(⟨2023, 3, 1⟩, [Cell.str "oops"])]
     (by decide)⟩

/-! ### Claim C4: maker field in monthly mode -/

/-- A monthly source used to inspect the produced schema. -/
def C4wideTable : WideTable := ⟨["2W"], [⟨2024, "Feb", [Cell.str "x"]⟩]⟩

/-- C4 counterexample: the monthly load's returned table does contain a
"maker" column — the source assigns a NaN maker column — so "contains no
maker field" is false (the availability flag is nonetheless false). -/
theorem C4_counterexample :
    load_monthly false C4wideTable =
      Except.ok ⟨["date", "category", "registrations", "maker"],
        [⟨⟨2024, 2, 1⟩, Option.none, "2W", 0⟩], false⟩ ∧
    "maker" ∈ ["date", "category", "registrations", "maker"] := ⟨rfl, by decide⟩

/-- C4 amended: every monthly load result carries a maker column whose
value is null in every row, and its maker-availability flag is false. -/
theorem C4_monthly_maker :
    ∀ (ev : Bool) (t : WideTable) (out : LoadOut), load_monthly ev t = Except.ok out →
      out.has_maker = false ∧ "maker" ∈ out.columns ∧
      ∀ r ∈ out.rows, r.maker = Option.none := by
  intro ev t out h
  unfold load_monthly at h
  cases hd : allDates t.rows with
  | none => rw [hd] at h; exact absurd h (by simp)
  | some rows2 =>
    rw [hd] at h
    simp only [Except.ok.injEq] at h
    rw [← h]
    refine ⟨rfl, by simp, ?_⟩
    intro r hr
    exact meltAux_maker t.catCols 0 rows2 r hr

/-- Witness for C4 at the concrete monthly table. -/
theorem C4_witness :
    (⟨⟨2024, 2, 1⟩, Option.none, "2W", (0 : ℚ)⟩ : Record).maker = Option.none :=
  (C4_monthly_maker false C4wideTable
    ⟨["date", "category", "registrations", "maker"],
     [⟨⟨2024, 2, 1⟩, Option.none, "2W", 0⟩], false⟩ rfl).2.2
    ⟨⟨2024, 2, 1⟩, Option.none, "2W", 0⟩ (by simp)

/-! ### Claim C9: monthly wide-to-long reshape -/

/-- The wide monthly row of the claimed scenario. -/
def C9wideTable : WideTable := ⟨["2W", "4W"], [⟨2023, "Jan", [Cell.num 10, Cell.num 5]⟩]⟩

/-- C9: the scenario row melts to exactly the two claimed long-form rows,
and in general every (category column, row) cell of the wide table
becomes exactly one long-form row, at the position the melt enumeration
assigns it. -/
theorem C9_melt_reshape :
    load_monthly false C9wideTable =
      Except.ok ⟨["date", "category", "registrations", "maker"],
        [⟨⟨2023, 1, 1⟩, Option.none, "2W", 10⟩,
         ⟨⟨2023, 1, 1⟩, Option.none, "4W", 5⟩], false⟩ ∧
    (∀ (ev : Bool) (t : WideTable) (out : LoadOut), load_monthly ev t = Except.ok out →
      out.rows.length = t.catCols.length * t.rows.length ∧
      ∀ (rows2 : List (Date × List Cell)) (k i : ℕ) (c : String) (rc : Date × List Cell),
        allDates t.rows = some rows2 → t.catCols[k]? = some c → rows2[i]? = some rc →
        out.rows[k * t.rows.length + i]? = some (meltRec k c rc)) := by
  refine ⟨rfl, ?_⟩
  intro ev t out h
  unfold load_monthly at h
  cases hd : allDates t.rows with
  | none => rw [hd] at h; exact absurd h (by simp)
  | some rows2 =>
    rw [hd] at h
    simp only [Except.ok.injEq] at h
    rw [← h]
    have hL : rows2.length = t.rows.length := allDates_length t.rows rows2 hd
    constructor
    · show (meltAux 0 t.catCols rows2).length = _
      rw [meltAux_length, hL]
    · intro rows2' k i c rc hd2 hk hi
      have hr2 : rows2 = rows2' := Option.some.inj hd2
      subst hr2
      show (meltAux 0 t.catCols rows2)[k * t.rows.length + i]? = _
      have hgE := meltAux_getElem? t.catCols 0 rows2 k i c rc hk hi
      rw [← hL]
      simpa using hgE

/-- Witness for C9's general clause at the concrete table: cell (k = 1,
i = 0) becomes the single long-form row at position 1. -/
theorem C9_witness :
    ([⟨⟨2023, 1, 1⟩, Option.none, "2W", (10 : ℚ)⟩,
      ⟨⟨2023, 1, 1⟩, Option.none, "4W", (5 : ℚ)⟩] : List Record)[1 * 1 + 0]? =
      some (meltRec 1 "4W" (⟨2023, 1, 1⟩, [Cell.num 10, Cell.num 5])) :=
  (C9_melt_reshape.2 false C9wideTable
    ⟨["date", "category", "registrations", "maker"],
     [⟨⟨2023, 1, 1⟩, Option.none, "2W", 10⟩,
      ⟨⟨2023, 1, 1⟩, Option.none, "4W", 5⟩], false⟩ rfl).2
    [(⟨2023, 1, 1⟩, [Cell.num 10, Cell.num 5])] 1 0 "4W"
    (⟨2023, 1, 1⟩, [Cell.num 10, Cell.num 5]) (by decide) (by decide) (by decide)

/-! ### Claim C10: growth result under permutations of the series -/

/-- C10 counterexample: two orderings of the same set of (index, value)
pairs — a duplicated index — give different growth results, because the
stable index sort preserves input order among equal indices. -/
theorem C10_counterexample :
    List.Perm [((1 : ℤ), some (100 : ℚ)), ((1 : ℤ), some (200 : ℚ))]
      [((1 : ℤ), some (200 : ℚ)), ((1 : ℤ), some (100 : ℚ))] ∧
    compute_growth_rates [((1 : ℤ), some (100 : ℚ)), ((1 : ℤ), some (200 : ℚ))] = some 1 ∧
    compute_growth_rates [((1 : ℤ), some (200 : ℚ)), ((1 : ℤ), some (100 : ℚ))] =
      some (-(1 / 2)) := by
  refine ⟨by decide, ?_, ?_⟩
  · rw [compute_growth_rates_formula _ ((1 : ℤ), (200 : ℚ)) ((1 : ℤ), (100 : ℚ)) []
      (by decide) (by decide)]
    norm_num
  · rw [compute_growth_rates_formula _ ((1 : ℤ), (100 : ℚ)) ((1 : ℤ), (200 : ℚ)) []
      (by decide) (by decide)]
    norm_num

/-- C10 amended: when the indices are pairwise distinct, the growth
result depends only on the set of (index, value) pairs — any permutation
of the series yields the same result, since the calculator sorts by index
and drops nulls before taking the last two points. -/
theorem C10_perm_invariant :
    ∀ l1 l2 : List (ℤ × Option ℚ), List.Perm l1 l2 → (l1.map Prod.fst).Nodup →
      compute_growth_rates l1 = compute_growth_rates l2 := by
  intro l1 l2 hp hnd
  unfold compute_growth_rates
  rw [hp.length_eq, sortSeries_eq_of_perm l1 l2 hp hnd]

/-- Witness for C10 at a concrete permutation with distinct indices. -/
theorem C10_witness :
    compute_growth_rates [((0 : ℤ), some (1 : ℚ)), ((1 : ℤ), some (2 : ℚ))] =
      compute_growth_rates [((1 : ℤ), some (2 : ℚ)), ((0 : ℤ), some (1 : ℚ))] :=
  C10_perm_invariant _ _ (by decide) (by decide)
